/-
  Verification of the ALPINE drawing software core
  (parameter model, geometry engine, dimension engine, layout engine).

  The Python modules under src/core are shallowly embedded below:
  every numeric field is modelled as a rational number (the source uses
  exact decimal literals and field arithmetic only), integer counters as
  integers, and the Python loops as maps over `List.range`.
-/
import Mathlib

namespace Alpine

/-- Embedding of `CoilParameters` (src/core/parameters.py 11-69). -/
structure CoilParameters where
  fin_length : ℚ := 1330
  fin_height : ℚ := 1400
  no_of_rows : ℤ := 6
  tubes_per_row : ℤ := 35
  tube_od_inch : String := "5/8"
  tube_diameter : ℚ := 15.875
  fpi : ℤ := 13
  no_of_circuits : ℤ := 35
  top_plate : ℚ := 65
  bottom_plate : ℚ := 35
  casing_left : ℚ := 35
  casing_right : ℚ := 65
  casing_top : ℚ := 15
  casing_bottom : ℚ := 15
  casing_thickness : ℚ := 1.5
  coil_depth : ℚ := 207.6
  header_depth : ℚ := 320
  return_depth : ℚ := 320
  connection_side : String := "LHS"
  connection_extension : ℚ := 170
  connection_vertical_gap : ℚ := 75
  top_header_block_length : ℚ := 180
  top_return_extension : ℚ := 145
  top_right_step : ℚ := 12
  top_pipe_fitting_outer_offset : ℚ := 50
  top_pipe_fitting_inner_offset : ℚ := 25
  top_pipe_stub_center_offset : ℚ := 50
  top_pipe_stub_spacing : ℚ := 12
  front_left_reference_extra : ℚ := 150
  fin_material : String := "Plain Aluminium"
  fin_thickness : ℚ := 0.11
  tube_wall_thickness : ℚ := 0.4

/-- The unmodified default record (`CoilParameters()`). -/
def defaultParams : CoilParameters := {}

namespace CoilParameters

/-- `casing_width` property (parameters.py 72-74). -/
def casing_width (p : CoilParameters) : ℚ :=
  p.casing_left + p.fin_length + p.casing_right

/-- `casing_height` property (parameters.py 76-78). -/
def casing_height (p : CoilParameters) : ℚ :=
  p.casing_bottom + p.fin_height + p.casing_top

/-- `vertical_pitch` property (parameters.py 80-85): 0 when TPR ≤ 1,
otherwise usable height / (TPR - 1). -/
def vertical_pitch (p : CoilParameters) : ℚ :=
  if p.tubes_per_row ≤ 1 then 0
  else (p.fin_height - p.top_plate - p.bottom_plate) / ((p.tubes_per_row : ℚ) - 1)

/-- `row_pitch` property (parameters.py 87-92): 0 when rows ≤ 1,
otherwise coil depth / rows. -/
def row_pitch (p : CoilParameters) : ℚ :=
  if p.no_of_rows ≤ 1 then 0
  else p.coil_depth / (p.no_of_rows : ℚ)

end CoilParameters

/-- The (name, value) pairs the positivity loop of `validate_parameters`
iterates over (parameters.py 109-116); the loop reads each listed field
with `getattr`. -/
def posChecked (p : CoilParameters) : List (String × ℚ) :=
  [("fin_length", p.fin_length), ("fin_height", p.fin_height),
   ("tube_diameter", p.tube_diameter),
   ("casing_top", p.casing_top), ("casing_bottom", p.casing_bottom),
   ("casing_left", p.casing_left), ("casing_right", p.casing_right),
   ("casing_thickness", p.casing_thickness), ("coil_depth", p.coil_depth),
   ("header_depth", p.header_depth),
   ("connection_extension", p.connection_extension),
   ("connection_vertical_gap", p.connection_vertical_gap),
   ("top_header_block_length", p.top_header_block_length),
   ("top_return_extension", p.top_return_extension),
   ("top_right_step", p.top_right_step),
   ("top_pipe_fitting_outer_offset", p.top_pipe_fitting_outer_offset),
   ("top_pipe_fitting_inner_offset", p.top_pipe_fitting_inner_offset),
   ("top_pipe_stub_center_offset", p.top_pipe_stub_center_offset),
   ("top_pipe_stub_spacing", p.top_pipe_stub_spacing),
   ("front_left_reference_extra", p.front_left_reference_extra)]

/-- The (name, value) pairs of the `>= 1` loop (parameters.py 119-121). -/
def geChecked (p : CoilParameters) : List (String × ℤ) :=
  [("no_of_rows", p.no_of_rows), ("tubes_per_row", p.tubes_per_row),
   ("fpi", p.fpi)]

/-- `validate_parameters` (parameters.py 107-124): collects, in order, one
"must be positive" message per non-positive checked dimension field, one
"must be >= 1" message per counter below 1, and the plate/fin-height
sentence when `top_plate + bottom_plate >= fin_height`. -/
def validate_parameters (p : CoilParameters) : List String :=
  (((posChecked p).filter (fun nv => nv.2 ≤ 0)).map
      (fun nv => nv.1 ++ " must be positive"))
  ++ (((geChecked p).filter (fun nv => nv.2 < 1)).map
      (fun nv => nv.1 ++ " must be >= 1"))
  ++ (if p.fin_height ≤ p.top_plate + p.bottom_plate
      then ["Top plate + Bottom plate must be < Fin Height"] else [])

/-- Number of violated validation invariants, written out invariant by
invariant (independently of the list machinery of `validate_parameters`). -/
def violationCount (p : CoilParameters) : ℕ :=
  (if p.fin_length ≤ 0 then 1 else 0) + (if p.fin_height ≤ 0 then 1 else 0)
  + (if p.tube_diameter ≤ 0 then 1 else 0)
  + (if p.casing_top ≤ 0 then 1 else 0) + (if p.casing_bottom ≤ 0 then 1 else 0)
  + (if p.casing_left ≤ 0 then 1 else 0) + (if p.casing_right ≤ 0 then 1 else 0)
  + (if p.casing_thickness ≤ 0 then 1 else 0) + (if p.coil_depth ≤ 0 then 1 else 0)
  + (if p.header_depth ≤ 0 then 1 else 0)
  + (if p.connection_extension ≤ 0 then 1 else 0)
  + (if p.connection_vertical_gap ≤ 0 then 1 else 0)
  + (if p.top_header_block_length ≤ 0 then 1 else 0)
  + (if p.top_return_extension ≤ 0 then 1 else 0)
  + (if p.top_right_step ≤ 0 then 1 else 0)
  + (if p.top_pipe_fitting_outer_offset ≤ 0 then 1 else 0)
  + (if p.top_pipe_fitting_inner_offset ≤ 0 then 1 else 0)
  + (if p.top_pipe_stub_center_offset ≤ 0 then 1 else 0)
  + (if p.top_pipe_stub_spacing ≤ 0 then 1 else 0)
  + (if p.front_left_reference_extra ≤ 0 then 1 else 0)
  + (if p.no_of_rows < 1 then 1 else 0) + (if p.tubes_per_row < 1 then 1 else 0)
  + (if p.fpi < 1 then 1 else 0)
  + (if p.fin_height ≤ p.top_plate + p.bottom_plate then 1 else 0)

/-- Record with a negative top plate offset and a negative return depth:
both are physical dimension fields, yet `validate_parameters` accepts the
record without complaint. -/
def c1BadParams : CoilParameters := { top_plate := -5, return_depth := -1 }

/-
  ──────────────────────  Geometry engine (geometry_engine.py)  ──────────────────────
  Primitive kinds follow the source's tuples: rectangles and line segments
  are 4-tuples, circles 3-tuples, arcs 5-tuples of rationals.
-/

/-- Python `int(q)` — truncation toward zero. -/
def pyInt (q : ℚ) : ℤ := Int.tdiv q.num q.den

/-- `generate_front_geometry` output record (geometry_engine.py 48-54). -/
structure FrontGeometry where
  view_type : String
  outer_rect : ℚ × ℚ × ℚ × ℚ
  fin_rect : ℚ × ℚ × ℚ × ℚ
  fin_lines : List (ℚ × ℚ × ℚ × ℚ)
  params : CoilParameters

/-- `generate_front_geometry` (geometry_engine.py 21-54). -/
def generate_front_geometry (p : CoilParameters) : FrontGeometry :=
  let CW := p.casing_width
  let CH := p.casing_height
  let cl := p.casing_left
  let cb := p.casing_bottom
  let FL := p.fin_length
  let FH := p.fin_height
  let fin_spacing : ℚ := 25.4 / (p.fpi : ℚ)
  let n_fins : ℤ := pyInt (FH / fin_spacing)
  let step : ℕ := max 1 (Int.fdiv n_fins 40).toNat
  { view_type := "FRONT"
    outer_rect := (0, 0, CW, CH)
    fin_rect := (cl, cb, FL, FH)
    fin_lines :=
      (((List.range n_fins.toNat).filter (fun i => i % step == 0)).filter
          (fun (i : ℕ) => cb + (i : ℚ) * fin_spacing < cb + FH)).map
        (fun (i : ℕ) =>
          (cl, cb + (i : ℚ) * fin_spacing, cl + FL, cb + (i : ℚ) * fin_spacing))
    params := p }

/-- Header / return side view record (geometry_engine.py 107-114, 162-168). -/
structure SideGeometry where
  view_type : String
  outer_rect : ℚ × ℚ × ℚ × ℚ
  inner_rect : ℚ × ℚ × ℚ × ℚ
  offset_lines : List (ℚ × ℚ × ℚ × ℚ)
  tubes : List (ℚ × ℚ × ℚ)
  params : CoilParameters

/-- Width of the inner tube-grid box, `grid_w = RP * NR`
(geometry_engine.py 91 and 147). -/
def sideGridW (p : CoilParameters) : ℚ := p.row_pitch * (p.no_of_rows : ℚ)

/-- Header view `grid_x = (HD - grid_w) / 2` (geometry_engine.py 93). -/
def headerGridX (p : CoilParameters) : ℚ := (p.header_depth - sideGridW p) / 2

/-- Return view `grid_x = (RD - grid_w) / 2` (geometry_engine.py 149). -/
def returnGridX (p : CoilParameters) : ℚ := (p.return_depth - sideGridW p) / 2

/-- Header view per-row tube x-centre,
`cx = grid_x + RP / 2 + row * RP` (geometry_engine.py 101). -/
def headerTubeCX (p : CoilParameters) (row : ℕ) : ℚ :=
  headerGridX p + p.row_pitch / 2 + (row : ℚ) * p.row_pitch

/-- Return view per-row tube x-centre,
`cx = grid_x + grid_w - (RP / 2 + row * RP)` (geometry_engine.py 156). -/
def returnTubeCX (p : CoilParameters) (row : ℕ) : ℚ :=
  returnGridX p + sideGridW p - (p.row_pitch / 2 + (row : ℚ) * p.row_pitch)

/-- Per-row vertical start shared by both side views: `grid_y` (= bottom
plate offset) plus `VP/4` on even rows, `3*VP/4` on odd rows
(geometry_engine.py 102 and 157). -/
def sideYStart (p : CoilParameters) (row : ℕ) : ℚ :=
  p.bottom_plate +
    (if row % 2 = 0 then p.vertical_pitch / 4 else 3 * p.vertical_pitch / 4)

/-- `generate_header_geometry` (geometry_engine.py 61-114). -/
def generate_header_geometry (p : CoilParameters) : SideGeometry :=
  let HD := p.header_depth
  let TP := p.top_plate
  let BP := p.bottom_plate
  let VP := p.vertical_pitch
  let CH := (p.tubes_per_row : ℚ) * VP + TP + BP
  let bp_y := BP
  let tp_y := CH - TP
  { view_type := "HEADER_SIDE"
    outer_rect := (0, 0, HD, CH)
    inner_rect := (headerGridX p, bp_y, sideGridW p, (p.tubes_per_row : ℚ) * VP)
    offset_lines := [(0, bp_y, HD, bp_y), (0, tp_y, HD, tp_y)]
    tubes :=
      (List.range p.no_of_rows.toNat).flatMap (fun row =>
        (List.range p.tubes_per_row.toNat).map (fun (t : ℕ) =>
          (headerTubeCX p row, sideYStart p row + (t : ℚ) * VP, p.tube_diameter / 2)))
    params := p }

/-- `generate_return_geometry` (geometry_engine.py 121-168). -/
def generate_return_geometry (p : CoilParameters) : SideGeometry :=
  let RD := p.return_depth
  let TP := p.top_plate
  let BP := p.bottom_plate
  let VP := p.vertical_pitch
  let CH := (p.tubes_per_row : ℚ) * VP + TP + BP
  let bp_y := BP
  let tp_y := CH - TP
  { view_type := "RETURN_END"
    outer_rect := (0, 0, RD, CH)
    inner_rect := (returnGridX p, bp_y, sideGridW p, (p.tubes_per_row : ℚ) * VP)
    offset_lines := [(0, bp_y, RD, bp_y), (0, tp_y, RD, tp_y)]
    tubes :=
      (List.range p.no_of_rows.toNat).flatMap (fun row =>
        (List.range p.tubes_per_row.toNat).map (fun (t : ℕ) =>
          (returnTubeCX p row, sideYStart p row + (t : ℚ) * VP, p.tube_diameter / 2)))
    params := p }

/-- Connection pipe entry of the top view: line, label, label position
(geometry_engine.py 244-247 etc.). -/
structure ConnectionPipe where
  line : ℚ × ℚ × ℚ × ℚ
  label : String
  label_pos : ℚ × ℚ
  deriving DecidableEq

/-- `generate_top_geometry` output record (geometry_engine.py 298-319). -/
structure TopGeometry where
  view_type : String
  outer_rect : ℚ × ℚ × ℚ × ℚ
  header_block_rect : ℚ × ℚ × ℚ × ℚ
  fin_rect : ℚ × ℚ × ℚ × ℚ
  zone_lines : List (ℚ × ℚ × ℚ × ℚ)
  tube_lines : List (ℚ × ℚ × ℚ × ℚ)
  connection_pipes : List ConnectionPipe
  pipe_circles : List (ℚ × ℚ × ℚ)
  pipe_stubs : List (ℚ × ℚ × ℚ × ℚ)
  bend_arcs : List (ℚ × ℚ × ℚ × ℚ × ℚ)
  return_rect : ℚ × ℚ × ℚ × ℚ
  top_right_box : ℚ × ℚ × ℚ × ℚ
  pipe_ext : ℚ
  return_ext : ℚ
  margin : ℚ
  total_width : ℚ
  header_block_len : ℚ
  pipe_gap : ℚ
  top_right_step : ℚ
  params : CoilParameters

/-- Top view Y margin of the coil zone, `(HD - CD) / 2`
(geometry_engine.py 199). -/
def topMargin (p : CoilParameters) : ℚ := (p.header_depth - p.coil_depth) / 2

/-- Top view per-row tube centreline `yc = margin + RP/2 + row*RP`
(geometry_engine.py 228 and 286-287). -/
def topRowCY (p : CoilParameters) (row : ℕ) : ℚ :=
  topMargin p + p.row_pitch / 2 + (row : ℚ) * p.row_pitch

/-- `generate_top_geometry` (geometry_engine.py 176-319). -/
def generate_top_geometry (p : CoilParameters) : TopGeometry :=
  let CW := p.casing_width
  let cl := p.casing_left
  let cr := p.casing_right
  let FL := p.fin_length
  let HD := p.header_depth
  let CD := p.coil_depth
  let NR := p.no_of_rows
  let tube_r := p.tube_diameter / 2
  let margin := topMargin p
  let pipe_ext := p.connection_extension
  let pipe_gap := p.connection_vertical_gap
  let header_block_len := min p.top_header_block_length CW
  let return_ext := p.top_return_extension
  let fit_outer_off := p.top_pipe_fitting_outer_offset
  let fit_inner_off := p.top_pipe_fitting_inner_offset
  let stub_center_off := p.top_pipe_stub_center_offset
  let stub_spacing := p.top_pipe_stub_spacing
  let y_centre := HD / 2
  let pipe_y_in := y_centre - pipe_gap / 2
  let pipe_y_out := y_centre + pipe_gap / 2
  let lhs : List ConnectionPipe × List (ℚ × ℚ × ℚ) × List (ℚ × ℚ × ℚ × ℚ) :=
    ([{ line := (-pipe_ext, pipe_y_in, header_block_len, pipe_y_in),
        label := "IN", label_pos := (-pipe_ext - 20, pipe_y_in) },
      { line := (-pipe_ext, pipe_y_out, header_block_len, pipe_y_out),
        label := "OUT", label_pos := (-pipe_ext - 25, pipe_y_out) }],
     [(-pipe_ext + fit_outer_off, pipe_y_in, tube_r),
      (header_block_len - fit_inner_off, pipe_y_in, tube_r),
      (-pipe_ext + fit_outer_off, pipe_y_out, tube_r),
      (header_block_len - fit_inner_off, pipe_y_out, tube_r)],
     [(-pipe_ext + stub_center_off - stub_spacing / 2, pipe_y_in - tube_r,
       -pipe_ext + stub_center_off - stub_spacing / 2, pipe_y_in + tube_r),
      (-pipe_ext + stub_center_off + stub_spacing / 2, pipe_y_in - tube_r,
       -pipe_ext + stub_center_off + stub_spacing / 2, pipe_y_in + tube_r),
      (-pipe_ext + stub_center_off - stub_spacing / 2, pipe_y_out - tube_r,
       -pipe_ext + stub_center_off - stub_spacing / 2, pipe_y_out + tube_r),
      (-pipe_ext + stub_center_off + stub_spacing / 2, pipe_y_out - tube_r,
       -pipe_ext + stub_center_off + stub_spacing / 2, pipe_y_out + tube_r)])
  let rhs : List ConnectionPipe × List (ℚ × ℚ × ℚ) × List (ℚ × ℚ × ℚ × ℚ) :=
    ([{ line := (CW - header_block_len, pipe_y_in, CW + pipe_ext, pipe_y_in),
        label := "IN", label_pos := (CW + pipe_ext + 15, pipe_y_in) },
      { line := (CW - header_block_len, pipe_y_out, CW + pipe_ext, pipe_y_out),
        label := "OUT", label_pos := (CW + pipe_ext + 15, pipe_y_out) }],
     [(CW + pipe_ext - fit_outer_off, pipe_y_in, tube_r),
      (CW - header_block_len + fit_inner_off, pipe_y_in, tube_r),
      (CW + pipe_ext - fit_outer_off, pipe_y_out, tube_r),
      (CW - header_block_len + fit_inner_off, pipe_y_out, tube_r)],
     [])
  let conn := if p.connection_side = "LHS" then lhs else rhs
  { view_type := "TOP"
    outer_rect := (0, 0, CW, HD)
    header_block_rect := (0, margin, min header_block_len CW, CD)
    fin_rect := (cl, margin, FL, CD)
    zone_lines := [(header_block_len, margin, CW, margin),
                   (header_block_len, margin + CD, CW, margin + CD)]
    tube_lines :=
      (List.range NR.toNat).flatMap (fun row =>
        [(header_block_len, topRowCY p row - tube_r, CW, topRowCY p row - tube_r),
         (header_block_len, topRowCY p row + tube_r, CW, topRowCY p row + tube_r)])
    connection_pipes := conn.1
    pipe_circles := conn.2.1
    pipe_stubs := conn.2.2
    bend_arcs :=
      (((List.range (NR - 1).toNat).filter (fun row => row % 2 == 0)).map
        (fun row =>
          (CW + cr, (topRowCY p row + topRowCY p (row + 1)) / 2,
           (topRowCY p (row + 1) - topRowCY p row) / 2, -90, 180)))
    return_rect := (CW, margin, return_ext, CD)
    top_right_box := (CW, 0, p.top_right_step, margin)
    pipe_ext := pipe_ext
    return_ext := return_ext
    margin := margin
    total_width := pipe_ext + CW + return_ext
    header_block_len := header_block_len
    pipe_gap := pipe_gap
    top_right_step := p.top_right_step
    params := p }

/-
  ──────────────────  Dimension engine (dimension_engine.py)  ──────────────────
  Only the shared arrowhead primitive and the module constants are reached
  by the claims; angles force real (noncomputable) arithmetic.
-/

/-- Module constant `ARROW_LEN = 3.0` (dimension_engine.py 9). -/
def ARROW_LEN : ℝ := 3

/-- Module constant `ARROW_ANGLE = 25.0` (dimension_engine.py 10). -/
def ARROW_ANGLE : ℝ := 25

/-- Module constant `EXT_GAP = 2.0` (dimension_engine.py 11). -/
def EXT_GAP : ℝ := 2

/-- Module constant `EXT_OVER = 3.0` (dimension_engine.py 12). -/
def EXT_OVER : ℝ := 3

/-- `math.radians`. -/
noncomputable def radians (d : ℝ) : ℝ := d * Real.pi / 180

/-- `arrowhead_lines` (dimension_engine.py 16-24): two open-V legs from the
tip `(tx, ty)`, one per sign `s ∈ (1, -1)`. -/
noncomputable def arrowhead_lines (tx ty a_deg : ℝ) : List (ℝ × ℝ × ℝ × ℝ) :=
  [(1 : ℝ), -1].map (fun s =>
    (tx, ty,
     tx + (-ARROW_LEN * Real.cos (radians a_deg + s * radians ARROW_ANGLE)),
     ty + (-ARROW_LEN * Real.sin (radians a_deg + s * radians ARROW_ANGLE))))

/-
  ─────────────────────  Layout engine (layout_engine.py)  ─────────────────────
  The view descriptors carry each view's geometry record; the per-view
  dimension-annotation lists do not influence any placement and are not
  modelled, nor is the text content of the notes / title block.
-/

/-- The heterogeneous geometry payload of a view descriptor. -/
inductive ViewGeometry where
  | front (g : FrontGeometry)
  | side (g : SideGeometry)
  | top (g : TopGeometry)

/-- `geometry["outer_rect"]` of a view payload. -/
def ViewGeometry.outer_rect : ViewGeometry → ℚ × ℚ × ℚ × ℚ
  | .front g => g.outer_rect
  | .side g => g.outer_rect
  | .top g => g.outer_rect

/-- `ViewDescriptor` (layout_engine.py 34-40). -/
structure ViewDescriptor where
  label : String
  offset_x : ℚ
  offset_y : ℚ
  geometry : ViewGeometry

/-- `DrawingLayout` (layout_engine.py 43-49), placement data only. -/
structure DrawingLayout where
  views : List ViewDescriptor
  notes_offset : ℚ × ℚ
  title_block_offset : ℚ × ℚ

/-- `VIEW_GAP = 80.0` (layout_engine.py 31). -/
def VIEW_GAP : ℚ := 80

/-- `generate_layout` (layout_engine.py 52-95). -/
def generate_layout (p : CoilParameters) : DrawingLayout :=
  let front_geo := generate_front_geometry p
  let header_geo := generate_header_geometry p
  let return_geo := generate_return_geometry p
  let top_geo := generate_top_geometry p
  let front_w := front_geo.outer_rect.2.2.1
  let front_h := front_geo.outer_rect.2.2.2
  let header_w := header_geo.outer_rect.2.2.1
  let header_h := header_geo.outer_rect.2.2.2
  let return_h := return_geo.outer_rect.2.2.2
  let top_h := top_geo.outer_rect.2.2.2
  let bottom_y := top_h + VIEW_GAP
  let header_x : ℚ := 0
  let front_x := header_w + VIEW_GAP
  let return_x := front_x + front_w + VIEW_GAP
  let top_x := front_x
  let top_y : ℚ := 0
  let notes_y := bottom_y + max (max front_h header_h) return_h + VIEW_GAP / 2
  { views := [⟨"TOP", top_x, top_y, .top top_geo⟩,
              ⟨"HEADER SIDE", header_x, bottom_y, .side header_geo⟩,
              ⟨"FRONT", front_x, bottom_y, .front front_geo⟩,
              ⟨"RETURN END SIDE", return_x, bottom_y, .side return_geo⟩]
    notes_offset := (header_x, notes_y)
    title_block_offset := (return_x, notes_y) }

/-- A view's sheet bounding box: placement offset plus outer rectangle. -/
def placedRect (v : ViewDescriptor) : ℚ × ℚ × ℚ × ℚ :=
  (v.offset_x + v.geometry.outer_rect.1, v.offset_y + v.geometry.outer_rect.2.1,
   v.geometry.outer_rect.2.2.1, v.geometry.outer_rect.2.2.2)

/-- Two axis-aligned boxes `(x, y, w, h)` intersect: the closed x-spans and
the closed y-spans both meet. -/
def rectsOverlap (a b : ℚ × ℚ × ℚ × ℚ) : Prop :=
  a.1 ≤ b.1 + b.2.2.1 ∧ b.1 ≤ a.1 + a.2.2.1 ∧
  a.2.1 ≤ b.2.1 + b.2.2.2 ∧ b.2.1 ≤ a.2.1 + a.2.2.2

/-- Horizontal mirror of a point's x-coordinate about the casing centreline
`x = CW / 2`. -/
def mirrorX (CW x : ℚ) : ℚ := CW - x

/-- Horizontal mirror of a segment about `x = CW / 2`, endpoints exchanged
(a segment is unordered; mirroring reverses left/right). -/
def mirrorSeg (CW : ℚ) (s : ℚ × ℚ × ℚ × ℚ) : ℚ × ℚ × ℚ × ℚ :=
  (mirrorX CW s.2.2.1, s.2.2.2, mirrorX CW s.1, s.2.1)

/-- Horizontal mirror of a circle about `x = CW / 2`. -/
def mirrorCircle (CW : ℚ) (c : ℚ × ℚ × ℚ) : ℚ × ℚ × ℚ :=
  (mirrorX CW c.1, c.2.1, c.2.2)

/-
  ════════════════════════════════  THEOREMS  ════════════════════════════════
-/

/-- C1 (counterexample): `top_plate` and `return_depth` are physical
dimension fields; with `top_plate = -5` and `return_depth = -1` (all other
fields at their defaults) `validate_parameters` returns no message at all,
so a non-positive physical dimension field need not produce a
"must be positive" message. -/
theorem claim_C1_counterexample :
    c1BadParams.top_plate ≤ 0 ∧ c1BadParams.return_depth ≤ 0 ∧
      validate_parameters c1BadParams = [] := by
  refine ⟨by norm_num [c1BadParams], by norm_num [c1BadParams], ?_⟩
  norm_num [validate_parameters, posChecked, geChecked, c1BadParams]

set_option maxHeartbeats 2000000 in
/-- C1 (amended): for every parameter record, `validate_parameters` emits
"<field> must be positive" exactly for the twenty dimension fields of its
checked list that are not strictly positive (`top_plate`, `bottom_plate`
and `return_depth` are never positivity-checked), "<field> must be >= 1"
exactly for each of `no_of_rows`, `tubes_per_row`, `fpi` below 1, and the
fixed plate/fin-height sentence exactly when
`top_plate + bottom_plate ≥ fin_height`; all violations are collected in
one pass, one message per violated invariant
(`length = violationCount`). -/
theorem claim_C1 (p : CoilParameters) :
    ("fin_length must be positive" ∈ validate_parameters p ↔ p.fin_length ≤ 0) ∧
    ("fin_height must be positive" ∈ validate_parameters p ↔ p.fin_height ≤ 0) ∧
    ("tube_diameter must be positive" ∈ validate_parameters p ↔ p.tube_diameter ≤ 0) ∧
    ("casing_top must be positive" ∈ validate_parameters p ↔ p.casing_top ≤ 0) ∧
    ("casing_bottom must be positive" ∈ validate_parameters p ↔ p.casing_bottom ≤ 0) ∧
    ("casing_left must be positive" ∈ validate_parameters p ↔ p.casing_left ≤ 0) ∧
    ("casing_right must be positive" ∈ validate_parameters p ↔ p.casing_right ≤ 0) ∧
    ("casing_thickness must be positive" ∈ validate_parameters p ↔ p.casing_thickness ≤ 0) ∧
    ("coil_depth must be positive" ∈ validate_parameters p ↔ p.coil_depth ≤ 0) ∧
    ("header_depth must be positive" ∈ validate_parameters p ↔ p.header_depth ≤ 0) ∧
    ("connection_extension must be positive" ∈ validate_parameters p ↔ p.connection_extension ≤ 0) ∧
    ("connection_vertical_gap must be positive" ∈ validate_parameters p ↔ p.connection_vertical_gap ≤ 0) ∧
    ("top_header_block_length must be positive" ∈ validate_parameters p ↔ p.top_header_block_length ≤ 0) ∧
    ("top_return_extension must be positive" ∈ validate_parameters p ↔ p.top_return_extension ≤ 0) ∧
    ("top_right_step must be positive" ∈ validate_parameters p ↔ p.top_right_step ≤ 0) ∧
    ("top_pipe_fitting_outer_offset must be positive" ∈ validate_parameters p ↔ p.top_pipe_fitting_outer_offset ≤ 0) ∧
    ("top_pipe_fitting_inner_offset must be positive" ∈ validate_parameters p ↔ p.top_pipe_fitting_inner_offset ≤ 0) ∧
    ("top_pipe_stub_center_offset must be positive" ∈ validate_parameters p ↔ p.top_pipe_stub_center_offset ≤ 0) ∧
    ("top_pipe_stub_spacing must be positive" ∈ validate_parameters p ↔ p.top_pipe_stub_spacing ≤ 0) ∧
    ("front_left_reference_extra must be positive" ∈ validate_parameters p ↔ p.front_left_reference_extra ≤ 0) ∧
    ("no_of_rows must be >= 1" ∈ validate_parameters p ↔ p.no_of_rows < 1) ∧
    ("tubes_per_row must be >= 1" ∈ validate_parameters p ↔ p.tubes_per_row < 1) ∧
    ("fpi must be >= 1" ∈ validate_parameters p ↔ p.fpi < 1) ∧
    ("Top plate + Bottom plate must be < Fin Height" ∈ validate_parameters p ↔
      p.fin_height ≤ p.top_plate + p.bottom_plate) ∧
    ("top_plate must be positive" ∉ validate_parameters p) ∧
    ("bottom_plate must be positive" ∉ validate_parameters p) ∧
    ("return_depth must be positive" ∉ validate_parameters p) ∧
    (validate_parameters p).length = violationCount p := by
  and_intros <;>
    first
      | (simp [validate_parameters, posChecked, geChecked,
          List.mem_filter, or_and_right, exists_or, and_assoc]; done)
      | (by_cases hplate : p.fin_height ≤ p.top_plate + p.bottom_plate <;>
          simp only [validate_parameters, List.length_append, List.length_map,
            ← List.countP_eq_length_filter, posChecked, geChecked, violationCount,
            List.countP_cons, List.countP_nil, decide_eq_true_eq, hplate,
            List.length_cons, List.length_nil, if_true, if_false,
            ite_true, ite_false] <;>
          ring)

/-- C9: for tubes_per_row > 1 the header-side and return-end-side views
compute the identical outer height `TPR * VP + TP + BP`, which equals
`fin_height + vertical_pitch` exactly in rational arithmetic, and differs
from the front view's `casing_height` whenever
`vertical_pitch ≠ casing_bottom + casing_top`. -/
theorem claim_C9 (p : CoilParameters) (h : 1 < p.tubes_per_row) :
    (generate_header_geometry p).outer_rect.2.2.2 =
        (generate_return_geometry p).outer_rect.2.2.2 ∧
    (generate_header_geometry p).outer_rect.2.2.2 =
        p.fin_height + p.vertical_pitch ∧
    (p.vertical_pitch ≠ p.casing_bottom + p.casing_top →
      (generate_header_geometry p).outer_rect.2.2.2 ≠ p.casing_height) := by
  have hne : ((p.tubes_per_row : ℚ) - 1) ≠ 0 := by
    have : (1 : ℚ) < (p.tubes_per_row : ℚ) := by exact_mod_cast h
    intro hc
    nlinarith
  have hif : ¬ p.tubes_per_row ≤ 1 := not_le.mpr h
  have hmain : (generate_header_geometry p).outer_rect.2.2.2 =
      p.fin_height + p.vertical_pitch := by
    simp only [generate_header_geometry, CoilParameters.vertical_pitch, hif,
      if_false, ite_false]
    field_simp
    ring
  refine ⟨rfl, hmain, ?_⟩
  intro hvp heq
  apply hvp
  rw [hmain] at heq
  unfold CoilParameters.casing_height at heq
  linarith

/-- C9 witness at the default record (TPR = 35). -/
theorem claim_C9_witness :
    (generate_header_geometry defaultParams).outer_rect.2.2.2 =
        (generate_return_geometry defaultParams).outer_rect.2.2.2 ∧
    (generate_header_geometry defaultParams).outer_rect.2.2.2 =
        defaultParams.fin_height + defaultParams.vertical_pitch ∧
    (defaultParams.vertical_pitch ≠
        defaultParams.casing_bottom + defaultParams.casing_top →
      (generate_header_geometry defaultParams).outer_rect.2.2.2 ≠
        defaultParams.casing_height) :=
  claim_C9 defaultParams (by decide)

/-- C7: `generate_layout` places the four views in the fixed template:
header-side at x = 0, front at header width + gap, return-end after the
front view plus another gap, all three at y = top-view height + gap; the
top view above the front view at y = 0; notes at the header x with
y = bottom row + tallest bottom view + gap/2, and the title block at the
return x with that same y; the gap is the constant 80. -/
theorem claim_C7 (p : CoilParameters) :
    VIEW_GAP = 80 ∧
    (generate_layout p).views.map ViewDescriptor.label =
      ["TOP", "HEADER SIDE", "FRONT", "RETURN END SIDE"] ∧
    (generate_layout p).views.map (fun v => (v.offset_x, v.offset_y)) =
      [((generate_header_geometry p).outer_rect.2.2.1 + VIEW_GAP, 0),
       (0, (generate_top_geometry p).outer_rect.2.2.2 + VIEW_GAP),
       ((generate_header_geometry p).outer_rect.2.2.1 + VIEW_GAP,
        (generate_top_geometry p).outer_rect.2.2.2 + VIEW_GAP),
       ((generate_header_geometry p).outer_rect.2.2.1 + VIEW_GAP +
          (generate_front_geometry p).outer_rect.2.2.1 + VIEW_GAP,
        (generate_top_geometry p).outer_rect.2.2.2 + VIEW_GAP)] ∧
    (generate_layout p).notes_offset =
      (0, (generate_top_geometry p).outer_rect.2.2.2 + VIEW_GAP +
          max (max (generate_front_geometry p).outer_rect.2.2.2
                 (generate_header_geometry p).outer_rect.2.2.2)
            (generate_return_geometry p).outer_rect.2.2.2 + VIEW_GAP / 2) ∧
    (generate_layout p).title_block_offset =
      ((generate_header_geometry p).outer_rect.2.2.1 + VIEW_GAP +
         (generate_front_geometry p).outer_rect.2.2.1 + VIEW_GAP,
       (generate_layout p).notes_offset.2) := by
  refine ⟨rfl, rfl, ?_, ?_, ?_⟩ <;>
    simp [generate_layout, generate_front_geometry, generate_header_geometry,
      generate_return_geometry, generate_top_geometry]

/-- C10: any `connection_side` other than "LHS" takes the RHS branch of
the top view (connection pipes, fitting circles and stubs equal those of
the same record with side "RHS"), and `validate_parameters` never reads
`connection_side` at all, so an out-of-domain side is silently rendered
as RHS rather than rejected. -/
theorem claim_C10 (p : CoilParameters) (h : p.connection_side ≠ "LHS") :
    (generate_top_geometry p).connection_pipes =
        (generate_top_geometry { p with connection_side := "RHS" }).connection_pipes ∧
    (generate_top_geometry p).pipe_circles =
        (generate_top_geometry { p with connection_side := "RHS" }).pipe_circles ∧
    (generate_top_geometry p).pipe_stubs =
        (generate_top_geometry { p with connection_side := "RHS" }).pipe_stubs ∧
    (∀ s : String,
      validate_parameters { p with connection_side := s } = validate_parameters p) := by
  refine ⟨?_, ?_, ?_, fun s => rfl⟩ <;>
    simp [generate_top_geometry, CoilParameters.casing_width, h]

/-- C10 witness: the out-of-domain side "MIDDLE" on the default record. -/
theorem claim_C10_witness :
    (generate_top_geometry { defaultParams with connection_side := "MIDDLE" }).connection_pipes =
        (generate_top_geometry { { defaultParams with connection_side := "MIDDLE" } with
          connection_side := "RHS" }).connection_pipes ∧
    (generate_top_geometry { defaultParams with connection_side := "MIDDLE" }).pipe_circles =
        (generate_top_geometry { { defaultParams with connection_side := "MIDDLE" } with
          connection_side := "RHS" }).pipe_circles ∧
    (generate_top_geometry { defaultParams with connection_side := "MIDDLE" }).pipe_stubs =
        (generate_top_geometry { { defaultParams with connection_side := "MIDDLE" } with
          connection_side := "RHS" }).pipe_stubs ∧
    (∀ s : String,
      validate_parameters { { defaultParams with connection_side := "MIDDLE" } with
          connection_side := s } =
        validate_parameters { defaultParams with connection_side := "MIDDLE" }) :=
  claim_C10 { defaultParams with connection_side := "MIDDLE" } (by decide)

/-- C3 (counterexample): at the default record and row 0, the return view
tube x-centre is 246.5 while `grid_x + grid_w − header_view_X(0)` is
190.3 — the claimed formula is off by one `grid_x`. -/
theorem claim_C3_counterexample :
    returnTubeCX defaultParams 0 ≠
      headerGridX defaultParams + sideGridW defaultParams -
        headerTubeCX defaultParams 0 := by
  norm_num [returnTubeCX, headerTubeCX, headerGridX, returnGridX, sideGridW,
    CoilParameters.row_pitch, defaultParams]

/-- C3 (amended): for every record and row, the return view tube x-centre
equals `grid_x_ret + grid_w − (header_view_X(row) − grid_x_hdr)` — the
mirror is taken inside the grid, so one extra `grid_x` appears relative to
the claimed formula; when `header_depth = return_depth` (so both views
share one `grid_x`) this reads `2·grid_x + grid_w − header_view_X(row)`.
The named quantities are exactly the generators' inner-rectangle origin
and width. -/
theorem claim_C3 (p : CoilParameters) (row : ℕ) :
    headerGridX p = (generate_header_geometry p).inner_rect.1 ∧
    returnGridX p = (generate_return_geometry p).inner_rect.1 ∧
    sideGridW p = (generate_header_geometry p).inner_rect.2.2.1 ∧
    returnTubeCX p row =
      returnGridX p + sideGridW p - (headerTubeCX p row - headerGridX p) ∧
    (p.header_depth = p.return_depth →
      returnTubeCX p row =
        2 * headerGridX p + sideGridW p - headerTubeCX p row) := by
  refine ⟨rfl, rfl, rfl, by unfold returnTubeCX headerTubeCX; ring, ?_⟩
  intro hd
  unfold returnTubeCX headerTubeCX returnGridX headerGridX
  rw [hd]
  ring

/-- C3 witness at the default record (equal view depths) and row 0. -/
theorem claim_C3_witness :
    returnTubeCX defaultParams 0 =
        returnGridX defaultParams + sideGridW defaultParams -
          (headerTubeCX defaultParams 0 - headerGridX defaultParams) ∧
    returnTubeCX defaultParams 0 =
        2 * headerGridX defaultParams + sideGridW defaultParams -
          headerTubeCX defaultParams 0 :=
  ⟨(claim_C3 defaultParams 0).2.2.2.1, (claim_C3 defaultParams 0).2.2.2.2 rfl⟩

/-- C4: in both side views the row's vertical start is
`grid_y + VP/4` for even rows and `grid_y + 3·VP/4` for odd rows
(`grid_y` being the bottom-plate offset), consecutive parities differ by
exactly `VP/2`, and for `row < NR`, `t < TPR` the tube with centre
`(cx(row), y_start(row) + t·VP)` is emitted by both generators. -/
theorem claim_C4 (p : CoilParameters) (row t : ℕ)
    (hrow : row < p.no_of_rows.toNat) (ht : t < p.tubes_per_row.toNat) :
    (headerTubeCX p row, sideYStart p row + (t : ℚ) * p.vertical_pitch,
        p.tube_diameter / 2) ∈ (generate_header_geometry p).tubes ∧
    (returnTubeCX p row, sideYStart p row + (t : ℚ) * p.vertical_pitch,
        p.tube_diameter / 2) ∈ (generate_return_geometry p).tubes ∧
    sideYStart p row = p.bottom_plate +
      (if row % 2 = 0 then p.vertical_pitch / 4 else 3 * p.vertical_pitch / 4) ∧
    sideYStart p (2 * row + 1) - sideYStart p (2 * row) =
      p.vertical_pitch / 2 := by
  refine ⟨?_, ?_, rfl, ?_⟩
  · have heq : (fun tt : ℕ => (headerTubeCX p row,
        sideYStart p row + (tt : ℚ) * p.vertical_pitch, p.tube_diameter / 2)) t =
        (headerTubeCX p row, sideYStart p row + (t : ℚ) * p.vertical_pitch,
         p.tube_diameter / 2) := rfl
    exact List.mem_flatMap.mpr ⟨row, List.mem_range.mpr hrow,
      List.mem_map.mpr ⟨t, List.mem_range.mpr ht, heq⟩⟩
  · have heq : (fun tt : ℕ => (returnTubeCX p row,
        sideYStart p row + (tt : ℚ) * p.vertical_pitch, p.tube_diameter / 2)) t =
        (returnTubeCX p row, sideYStart p row + (t : ℚ) * p.vertical_pitch,
         p.tube_diameter / 2) := rfl
    exact List.mem_flatMap.mpr ⟨row, List.mem_range.mpr hrow,
      List.mem_map.mpr ⟨t, List.mem_range.mpr ht, heq⟩⟩
  · have h1 : (2 * row + 1) % 2 = 1 := by omega
    have h2 : (2 * row) % 2 = 0 := by omega
    rw [sideYStart, sideYStart, h1, h2, if_neg one_ne_zero, if_pos rfl]
    ring

/-- C4 witness at the default record, row 1, tube 2. -/
theorem claim_C4_witness :
    (headerTubeCX defaultParams 1,
        sideYStart defaultParams 1 + (2 : ℚ) * defaultParams.vertical_pitch,
        defaultParams.tube_diameter / 2) ∈
      (generate_header_geometry defaultParams).tubes ∧
    (returnTubeCX defaultParams 1,
        sideYStart defaultParams 1 + (2 : ℚ) * defaultParams.vertical_pitch,
        defaultParams.tube_diameter / 2) ∈
      (generate_return_geometry defaultParams).tubes ∧
    sideYStart defaultParams 1 = defaultParams.bottom_plate +
      (if 1 % 2 = 0 then defaultParams.vertical_pitch / 4
       else 3 * defaultParams.vertical_pitch / 4) ∧
    sideYStart defaultParams (2 * 1 + 1) - sideYStart defaultParams (2 * 1) =
      defaultParams.vertical_pitch / 2 :=
  claim_C4 defaultParams 1 2 (by decide) (by decide)

/-- The even indices below `n`, listed in order, are twice each index
below `(n+1)/2`. -/
lemma filter_even_range (n : ℕ) :
    (List.range n).filter (fun r => r % 2 == 0) =
      (List.range ((n + 1) / 2)).map (fun i => 2 * i) := by
  induction n with
  | zero => rfl
  | succ n ih =>
    rw [List.range_succ, List.filter_append, ih]
    by_cases h : n % 2 = 0
    · have h2 : (n + 1 + 1) / 2 = (n + 1) / 2 + 1 := by omega
      have h3 : 2 * ((n + 1) / 2) = n := by omega
      rw [h2, List.range_succ, List.map_append]
      simp [h, h3]
    · have h2 : (n + 1 + 1) / 2 = (n + 1) / 2 := by omega
      simp [h, h2]

/-- C5: the top view emits exactly `⌊NR/2⌋` return-bend arcs; the k-th arc
pairs rows 2k and 2k+1 and is the semicircle (start −90°, span 180°)
centred on the midpoint of the two rows' centrelines with radius half
their spacing. -/
theorem claim_C5 (p : CoilParameters) :
    ((generate_top_geometry p).bend_arcs).length = p.no_of_rows.toNat / 2 ∧
    ∀ k (hk : k < ((generate_top_geometry p).bend_arcs).length),
      ((generate_top_geometry p).bend_arcs).get ⟨k, hk⟩ =
        (p.casing_width + p.casing_right,
         (topRowCY p (2 * k) + topRowCY p (2 * k + 1)) / 2,
         (topRowCY p (2 * k + 1) - topRowCY p (2 * k)) / 2, -90, 180) := by
  have harcs : (generate_top_geometry p).bend_arcs =
      (List.range (((p.no_of_rows - 1).toNat + 1) / 2)).map (fun k =>
        (p.casing_width + p.casing_right,
         (topRowCY p (2 * k) + topRowCY p (2 * k + 1)) / 2,
         (topRowCY p (2 * k + 1) - topRowCY p (2 * k)) / 2, -90, 180)) := by
    simp only [generate_top_geometry, filter_even_range, List.map_map]
    rfl
  constructor
  · rw [harcs, List.length_map, List.length_range]
    omega
  · intro k hk
    have hk2 : k < (((p.no_of_rows - 1).toNat + 1) / 2) := by
      rw [harcs, List.length_map, List.length_range] at hk
      exact hk
    simp only [harcs, List.get_eq_getElem, List.getElem_map, List.getElem_range]

/-- C5 witness: the default record has 3 arcs; the first pairs rows 0, 1. -/
theorem claim_C5_witness :
    0 < ((generate_top_geometry defaultParams).bend_arcs).length ∧
    ∃ hk : 0 < ((generate_top_geometry defaultParams).bend_arcs).length,
      ((generate_top_geometry defaultParams).bend_arcs).get ⟨0, hk⟩ =
        (defaultParams.casing_width + defaultParams.casing_right,
         (topRowCY defaultParams 0 + topRowCY defaultParams 1) / 2,
         (topRowCY defaultParams 1 - topRowCY defaultParams 0) / 2, -90, 180) := by
  have hpos : 0 < ((generate_top_geometry defaultParams).bend_arcs).length := by
    rw [(claim_C5 defaultParams).1]
    decide
  exact ⟨hpos, hpos, (claim_C5 defaultParams).2 0 hpos⟩

/-- C2 (counterexample): at the default record, the LHS top view emits
four pipe stub lines while the RHS top view emits none, and the RHS label
x-positions (1615) differ from the mirrors of the LHS label positions
(1620 and 1625) — so stubs and label placements are not mirror images. -/
theorem claim_C2_counterexample :
    (generate_top_geometry { defaultParams with connection_side := "RHS" }).pipe_stubs = [] ∧
    (generate_top_geometry defaultParams).pipe_stubs.length = 4 ∧
    (generate_top_geometry { defaultParams with
        connection_side := "RHS" }).connection_pipes.map (fun c => c.label_pos) ≠
      (generate_top_geometry defaultParams).connection_pipes.map
        (fun c => (mirrorX defaultParams.casing_width c.label_pos.1, c.label_pos.2)) := by
  refine ⟨by simp [generate_top_geometry, defaultParams],
    by simp [generate_top_geometry, defaultParams], ?_⟩
  intro h
  simp only [generate_top_geometry, mirrorX] at h
  rw [if_neg (show ¬ ("RHS" = "LHS") by decide)] at h
  norm_num [CoilParameters.casing_width, defaultParams] at h

/-- C2 (amended): for records differing only in `connection_side`, the two
pipe lines (as unordered segments) and the four fitting circles of the RHS
record are the exact horizontal mirror images, in order, of the LHS
record's, with the same IN/OUT labels; the stub lines are not mirrored
(LHS emits four, RHS emits none) and the label placements are not
mirrored (both RHS labels sit at `CW + pipe_ext + 15`). -/
theorem claim_C2 (p : CoilParameters) :
    (generate_top_geometry { p with connection_side := "RHS" }).connection_pipes.map
        (fun c => c.line) =
      (generate_top_geometry { p with connection_side := "LHS" }).connection_pipes.map
        (fun c => mirrorSeg p.casing_width c.line) ∧
    (generate_top_geometry { p with connection_side := "RHS" }).connection_pipes.map
        (fun c => c.label) =
      (generate_top_geometry { p with connection_side := "LHS" }).connection_pipes.map
        (fun c => c.label) ∧
    (generate_top_geometry { p with connection_side := "RHS" }).pipe_circles =
      (generate_top_geometry { p with connection_side := "LHS" }).pipe_circles.map
        (mirrorCircle p.casing_width) ∧
    (generate_top_geometry { p with connection_side := "RHS" }).pipe_stubs = [] ∧
    (generate_top_geometry { p with connection_side := "LHS" }).pipe_stubs.length = 4 ∧
    (generate_top_geometry { p with connection_side := "RHS" }).connection_pipes.map
        (fun c => c.label_pos) =
      [(p.casing_width + p.connection_extension + 15,
        p.header_depth / 2 - p.connection_vertical_gap / 2),
       (p.casing_width + p.connection_extension + 15,
        p.header_depth / 2 + p.connection_vertical_gap / 2)] := by
  refine ⟨?_, ?_, ?_, ?_, ?_, ?_⟩ <;>
    simp [generate_top_geometry, mirrorSeg, mirrorCircle, mirrorX,
      CoilParameters.casing_width] <;>
    and_intros <;>
    ring

/-- C6: the arrowhead primitive returns exactly two segments, both rooted
at the tip, both of length 3 (squared length 9 = `ARROW_LEN ^ 2`), one
departing at +25° and one at −25° from the reversed direction
`a_deg + 180°`; the module constants are 3.0 / 25° / 2.0 / 3.0. -/
theorem claim_C6 (tx ty a_deg : ℝ) :
    ARROW_LEN = 3 ∧ ARROW_ANGLE = 25 ∧ EXT_GAP = 2 ∧ EXT_OVER = 3 ∧
    (arrowhead_lines tx ty a_deg).length = 2 ∧
    (∀ s ∈ arrowhead_lines tx ty a_deg,
      s.1 = tx ∧ s.2.1 = ty ∧
      (s.2.2.1 - tx) ^ 2 + (s.2.2.2 - ty) ^ 2 = ARROW_LEN ^ 2) ∧
    arrowhead_lines tx ty a_deg =
      [(tx, ty,
        tx + ARROW_LEN * Real.cos (radians (a_deg + 180) + radians ARROW_ANGLE),
        ty + ARROW_LEN * Real.sin (radians (a_deg + 180) + radians ARROW_ANGLE)),
       (tx, ty,
        tx + ARROW_LEN * Real.cos (radians (a_deg + 180) - radians ARROW_ANGLE),
        ty + ARROW_LEN * Real.sin (radians (a_deg + 180) - radians ARROW_ANGLE))] := by
  have hcos : ∀ x : ℝ, Real.cos (x + Real.pi) = -Real.cos x := fun x => by
    rw [Real.cos_add]; simp
  have hsin : ∀ x : ℝ, Real.sin (x + Real.pi) = -Real.sin x := fun x => by
    rw [Real.sin_add]; simp
  have hrad : radians (a_deg + 180) = radians a_deg + Real.pi := by
    unfold radians; field_simp; ring
  have hc1 : ∀ u v : ℝ, Real.cos (u + Real.pi + v) = -Real.cos (u + v) := fun u v => by
    rw [(by ring : u + Real.pi + v = u + v + Real.pi), hcos]
  have hs1 : ∀ u v : ℝ, Real.sin (u + Real.pi + v) = -Real.sin (u + v) := fun u v => by
    rw [(by ring : u + Real.pi + v = u + v + Real.pi), hsin]
  have hc2 : ∀ u v : ℝ, Real.cos (u + Real.pi - v) = -Real.cos (u - v) := fun u v => by
    rw [(by ring : u + Real.pi - v = u - v + Real.pi), hcos]
  have hs2 : ∀ u v : ℝ, Real.sin (u + Real.pi - v) = -Real.sin (u - v) := fun u v => by
    rw [(by ring : u + Real.pi - v = u - v + Real.pi), hsin]
  refine ⟨rfl, rfl, rfl, rfl, rfl, ?_, ?_⟩
  · intro s hs
    simp only [arrowhead_lines, List.map_cons, List.map_nil, List.mem_cons,
      List.not_mem_nil, or_false] at hs
    rcases hs with rfl | rfl
    · refine ⟨rfl, rfl, ?_⟩
      have key := Real.sin_sq_add_cos_sq (radians a_deg + 1 * radians ARROW_ANGLE)
      ring_nf
      ring_nf at key
      nlinarith [key]
    · refine ⟨rfl, rfl, ?_⟩
      have key := Real.sin_sq_add_cos_sq (radians a_deg + (-1) * radians ARROW_ANGLE)
      ring_nf
      ring_nf at key
      nlinarith [key]
  · simp only [arrowhead_lines, List.map_cons, List.map_nil, hrad, one_mul,
      neg_mul, List.cons.injEq, Prod.mk.injEq]
    and_intros <;> try trivial
    all_goals
      simp only [hc1, hs1, hc2, hs2]
      ring_nf

/-- C8: whenever validation passes, no two of the four placed view
bounding boxes intersect. -/
theorem claim_C8 (p : CoilParameters) (hval : validate_parameters p = []) :
    (generate_layout p).views.Pairwise
      (fun a b => ¬ rectsOverlap (placedRect a) (placedRect b)) := by
  have key : ∀ nv ∈ posChecked p, ¬ (nv.2 ≤ 0) := by
    intro nv hmem hle
    have hin : (nv.1 ++ " must be positive") ∈ validate_parameters p := by
      unfold validate_parameters
      refine List.mem_append.mpr (Or.inl (List.mem_append.mpr (Or.inl ?_)))
      exact List.mem_map.mpr
        ⟨nv, List.mem_filter.mpr ⟨hmem, decide_eq_true hle⟩, rfl⟩
    rw [hval] at hin
    exact absurd hin (List.not_mem_nil _)
  have hfl : 0 < p.fin_length :=
    not_le.mp (key ("fin_length", p.fin_length) (by simp [posChecked]))
  have hcl : 0 < p.casing_left :=
    not_le.mp (key ("casing_left", p.casing_left) (by simp [posChecked]))
  have hcr : 0 < p.casing_right :=
    not_le.mp (key ("casing_right", p.casing_right) (by simp [posChecked]))
  simp only [generate_layout, List.pairwise_cons, List.mem_cons,
    List.not_mem_nil, or_false]
  refine ⟨?_, ?_, ?_, fun _ hf => hf.elim, List.Pairwise.nil⟩
  · rintro a' (rfl | rfl | rfl) <;>
      (simp only [placedRect, rectsOverlap, ViewGeometry.outer_rect,
        generate_header_geometry, generate_front_geometry,
        generate_return_geometry, generate_top_geometry, VIEW_GAP,
        CoilParameters.casing_width, CoilParameters.casing_height];
       rintro ⟨h1, h2, h3, h4⟩; linarith)
  · rintro a' (rfl | rfl) <;>
      (simp only [placedRect, rectsOverlap, ViewGeometry.outer_rect,
        generate_header_geometry, generate_front_geometry,
        generate_return_geometry, generate_top_geometry, VIEW_GAP,
        CoilParameters.casing_width, CoilParameters.casing_height];
       rintro ⟨h1, h2, h3, h4⟩; linarith)
  · rintro a' rfl
    simp only [placedRect, rectsOverlap, ViewGeometry.outer_rect,
      generate_header_geometry, generate_front_geometry,
      generate_return_geometry, generate_top_geometry, VIEW_GAP,
      CoilParameters.casing_width, CoilParameters.casing_height]
    rintro ⟨h1, h2, h3, h4⟩
    linarith

/-- C8 witness: the default record validates cleanly. -/
theorem claim_C8_witness :
    (generate_layout defaultParams).views.Pairwise
      (fun a b => ¬ rectsOverlap (placedRect a) (placedRect b)) :=
  claim_C8 defaultParams
    (by norm_num [validate_parameters, posChecked, geChecked, defaultParams])

end Alpine
